import Mathlib

set_option maxRecDepth 4000

/-!
Shallow embedding of the ai_accountant_backend core: the extraction
normalization step (src/services/openai.js, extractExpenseData), the
ledger store operations and the loan-repayment reconciler
(src/services/supabase.js), and the process-utterance handler plus the
response formatter (server code).  Monetary columns are NUMERIC(15,2) in
the database schema, so amounts on stored rows are modelled as rationals;
raw JSON field values coming back from the structured-extraction service
are modelled by `JVal` (numeric-typed fields) and `Option String`
(string-typed fields, per the extraction contract), with `none` standing
for an absent field.
-/

namespace AiAccountant

/-- A JSON value as it may appear in a numeric-typed field of the raw
structured-extraction response. `undef` models an absent field, `str`
a malformed (non-numeric) value. -/
inductive JVal where
  | undef
  | null
  | num (q : ℚ)
  | str (s : String)
  | bool (b : Bool)
deriving DecidableEq

/-- JavaScript truthiness of a `JVal` (0, "", null, undefined, false are falsy). -/
def JVal.truthy : JVal → Bool
  | .undef => false
  | .null => false
  | .num q => q != 0
  | .str s => s != ""
  | .bool b => b

/-- JavaScript `x || d` on a JSON value. -/
def JVal.orDefault (x d : JVal) : JVal :=
  if x.truthy then x else d

/-- JavaScript `x || d` on a string-typed field (`none` = absent;
an empty string is falsy and also replaced). -/
def strOr (x : Option String) (d : String) : String :=
  match x with
  | none => d
  | some s => if s = "" then d else s

/-- The raw JSON object returned by the structured-extraction service
(all fields optional / possibly malformed). -/
structure RawExtraction where
  intent : Option String := none
  amount : JVal := .undef
  currency : Option String := none
  category : Option String := none
  notes : Option String := none
  type : Option String := none
  date : Option String := none
  lender_name : Option String := none
  loan_type : Option String := none
  principal_amount : JVal := .undef
  interest_rate : JVal := .undef
  tenure_months : JVal := .undef
  monthly_installment : JVal := .undef
deriving DecidableEq

/-- Normalized transaction-intent record (openai.js lines 176-184). -/
structure TransactionNorm where
  amount : JVal
  currency : String
  category : String
  notes : String
  type : String
  date : String
deriving DecidableEq

/-- Normalized new-loan-intent record (openai.js lines 149-162). -/
structure NewLoanNorm where
  lender_name : String
  loan_type : String
  principal_amount : JVal
  interest_rate : JVal
  tenure_months : JVal
  monthly_installment : JVal
  currency : String
  date : String
  notes : String
deriving DecidableEq

/-- Normalized loan-repayment-intent record (openai.js lines 164-173). -/
structure RepaymentNorm where
  lender_name : String
  amount : JVal
  currency : String
  date : String
  notes : String
deriving DecidableEq

/-- The tagged union of the three normalized intent records. -/
inductive Normalized where
  | newLoan (r : NewLoanNorm)
  | loanRepayment (r : RepaymentNorm)
  | transaction (r : TransactionNorm)
deriving DecidableEq

/-- The normalization-and-defaulting step of extractExpenseData
(openai.js lines 146-184).  `text` is the original input text and
`defaultDate` the anchor date string computed from the clock. -/
def extractExpenseData (raw : RawExtraction) (text defaultDate : String) : Normalized :=
  let intent := strOr raw.intent "transaction"
  if intent = "new_loan" then
    .newLoan {
      lender_name := strOr raw.lender_name "Unknown"
      loan_type := if raw.loan_type = some "personal" then "personal" else "bank"
      principal_amount := raw.principal_amount.orDefault (.num 0)
      interest_rate := raw.interest_rate.orDefault (.num 0)
      tenure_months := raw.tenure_months.orDefault .null
      monthly_installment := raw.monthly_installment.orDefault .null
      currency := strOr raw.currency "BDT"
      date := strOr raw.date defaultDate
      notes := strOr raw.notes text }
  else if intent = "loan_repayment" then
    .loanRepayment {
      lender_name := strOr raw.lender_name "Unknown"
      amount := raw.amount.orDefault (.num 0)
      currency := strOr raw.currency "BDT"
      date := strOr raw.date defaultDate
      notes := strOr raw.notes text }
  else
    .transaction {
      amount := raw.amount.orDefault (.num 0)
      currency := strOr raw.currency "BDT"
      category := strOr raw.category "other"
      notes := strOr raw.notes text
      type := if raw.type = some "income" then "income" else "expense"
      date := strOr raw.date defaultDate }

/-- The date field of a normalized extraction result. -/
def Normalized.dateOf : Normalized → String
  | .newLoan r => r.date
  | .loanRepayment r => r.date
  | .transaction r => r.date

/-- The currency field of a normalized extraction result. -/
def Normalized.currencyOf : Normalized → String
  | .newLoan r => r.currency
  | .loanRepayment r => r.currency
  | .transaction r => r.currency

/-- Whether a normalized extraction result is a transaction-intent record. -/
def Normalized.isTransaction : Normalized → Bool
  | .transaction _ => true
  | _ => false

/-- Gregorian leap-year test. -/
def isLeapYear (y : Nat) : Bool :=
  (y % 4 == 0 && y % 100 != 0) || y % 400 == 0

/-- Number of days in a month of the Gregorian calendar. -/
def daysInMonth (y m : Nat) : Nat :=
  if m = 2 then (if isLeapYear y then 29 else 28)
  else if m = 4 ∨ m = 6 ∨ m = 9 ∨ m = 11 then 30
  else 31

/-- Split a character list on a separator character. -/
def splitOnChar (sep : Char) : List Char → List (List Char)
  | [] => [[]]
  | c :: cs =>
    let rest := splitOnChar sep cs
    if c = sep then [] :: rest
    else
      match rest with
      | [] => [[c]]
      | r :: rs => (c :: r) :: rs

/-- Decimal value of a digit list. -/
def digitsToNat (cs : List Char) : Nat :=
  cs.foldl (fun a c => a * 10 + (c.toNat - 48)) 0

/-- Whether a string is a valid calendar date in YYYY-MM-DD form
(the date format the extraction contract specifies). -/
def isValidDate (s : String) : Bool :=
  match splitOnChar '-' s.data with
  | [y, m, d] =>
    y.length == 4 && m.length == 2 && d.length == 2 &&
    y.all Char.isDigit && m.all Char.isDigit && d.all Char.isDigit &&
    (let yn := digitsToNat y
     let mn := digitsToNat m
     let dn := digitsToNat d
     decide (1 ≤ mn ∧ mn ≤ 12 ∧ 1 ≤ dn ∧ dn ≤ daysInMonth yn mn))
  | _ => false

/-- A stored transaction row (the transactions table; ids are
server-assigned primary keys, modelled by a counter). The amount is
inserted exactly as supplied by the caller, so it is a `JVal`. -/
structure Txn where
  id : Nat
  user_id : String
  amount : JVal
  currency : String
  category : String
  notes : String
  type : String
  date : String
deriving DecidableEq

/-- A stored loan row (the loans table; NUMERIC columns as rationals). -/
structure Loan where
  id : Nat
  user_id : String
  lender_name : String
  loan_type : String
  principal_amount : ℚ
  interest_rate : ℚ
  tenure_months : Option Nat
  monthly_installment : Option ℚ
  total_paid : ℚ
  remaining_balance : ℚ
  currency : String
  status : String
  start_date : String
  notes : String
deriving DecidableEq

/-- The ledger store: the two mutable tables plus fresh-id counters for
the server-assigned primary keys. -/
structure Store where
  transactions : List Txn
  loans : List Loan
  nextTxnId : Nat
  nextLoanId : Nat
deriving DecidableEq

/-- Payload of saveTransaction (supabase.js lines 19-37). -/
structure TxnData where
  userId : String
  amount : JVal
  currency : String
  category : String
  notes : String
  type : String
  date : String
deriving DecidableEq

/-- saveTransaction: inserts one row into the transactions table
(supabase.js lines 19-37). -/
def saveTransaction (st : Store) (d : TxnData) : Store :=
  { st with
    transactions := st.transactions ++
      [{ id := st.nextTxnId
         user_id := d.userId
         amount := d.amount
         currency := d.currency
         category := d.category
         notes := d.notes
         type := d.type
         date := d.date }]
    nextTxnId := st.nextTxnId + 1 }

/-- deleteTransaction: deletes the row matching the given id; the only
filter is `.eq("id", transactionId)` (supabase.js lines 63-76). -/
def deleteTransaction (st : Store) (transactionId : Nat) : Store :=
  { st with transactions := st.transactions.filter (fun t => t.id != transactionId) }

/-- Payload of saveLoan (supabase.js lines 81-109). -/
structure LoanData where
  userId : String
  lender_name : String
  loan_type : String
  principal_amount : ℚ
  interest_rate : ℚ
  tenure_months : Option Nat
  monthly_installment : Option ℚ
  currency : String
  date : String
  notes : String
deriving DecidableEq

/-- saveLoan: inserts a loan row with total_paid 0, remaining_balance =
principal_amount and status "active" (supabase.js lines 81-109). -/
def saveLoan (st : Store) (d : LoanData) : Store × Loan :=
  let loan : Loan :=
    { id := st.nextLoanId
      user_id := d.userId
      lender_name := d.lender_name
      loan_type := d.loan_type
      principal_amount := d.principal_amount
      interest_rate := d.interest_rate
      tenure_months := d.tenure_months
      monthly_installment := d.monthly_installment
      total_paid := 0
      remaining_balance := d.principal_amount
      currency := if d.currency = "" then "BDT" else d.currency
      status := "active"
      start_date := d.date
      notes := d.notes }
  ({ st with loans := st.loans ++ [loan], nextLoanId := st.nextLoanId + 1 }, loan)

/-- deleteLoan: deletes the row matching the given id; the only filter is
`.eq("id", loanId)` (supabase.js lines 133-146). -/
def deleteLoan (st : Store) (loanId : Nat) : Store :=
  { st with loans := st.loans.filter (fun l => l.id != loanId) }

/-- Whether `pat` is a leading run of `hay`. -/
def leadsWith : List Char → List Char → Bool
  | [], _ => true
  | _ :: _, [] => false
  | a :: as, b :: bs => a == b && leadsWith as bs

/-- Whether `pat` occurs contiguously inside `hay`. -/
def subList (pat : List Char) : List Char → Bool
  | [] => pat.isEmpty
  | b :: bs => leadsWith pat (b :: bs) || subList pat bs

/-- Lower-case every character of a string. -/
def lowerStr (s : String) : String :=
  ⟨s.data.map Char.toLower⟩

/-- Case-insensitive substring test, modelling the SQL
`ilike "%pat%"` filter. -/
def containsIgnoreCase (hay pat : String) : Bool :=
  subList (lowerStr pat).data (lowerStr hay).data

/-- The candidate query of recordLoanRepayment: active loans of the user
whose stored lender name contains the repayment's lender name
case-insensitively (supabase.js lines 153-159). -/
def findActiveLoansMatching (st : Store) (userId lenderName : String) : List Loan :=
  st.loans.filter
    (fun l => l.user_id == userId && l.status == "active" &&
      containsIgnoreCase l.lender_name lenderName)

/-- The loan-update write of recordLoanRepayment: sets the three columns
on the row matching the id (supabase.js lines 183-190). -/
def updateLoan (st : Store) (loanId : Nat) (totalPaid remaining : ℚ)
    (status : String) : Store :=
  { st with loans := st.loans.map (fun l =>
      if l.id == loanId then
        { l with total_paid := totalPaid, remaining_balance := remaining,
                 status := status }
      else l) }

/-- newTotalPaid of a repayment (supabase.js line 178). -/
def repayTotalPaid (loan : Loan) (amount : ℚ) : ℚ :=
  loan.total_paid + amount

/-- newRemaining of a repayment, before clamping (supabase.js line 179). -/
def repayRemaining (loan : Loan) (amount : ℚ) : ℚ :=
  loan.remaining_balance - amount

/-- newStatus of a repayment (supabase.js line 180). -/
def repayStatus (loan : Loan) (amount : ℚ) : String :=
  if repayRemaining loan amount ≤ 0 then "paid_off" else "active"

/-- The updated loan of a matched repayment: total_paid + amount,
remaining clamped at zero, status from the unclamped remaining
(supabase.js lines 178-190 and the snapshot on line 206). -/
def applyRepayment (loan : Loan) (amount : ℚ) : Loan :=
  { loan with
    total_paid := repayTotalPaid loan amount
    remaining_balance := max 0 (repayRemaining loan amount)
    status := repayStatus loan amount }

/-- Rendering of a rational with two decimal places, modelling
JavaScript's toFixed(2) (round half up; exact for the NUMERIC(15,2)
values the table stores). -/
def toFixed2 (q : ℚ) : String :=
  let c : ℤ := ⌊q * 100 + 1 / 2⌋
  let f := (c % 100).toNat
  toString (c / 100) ++ "." ++ (if f < 10 then "0" else "") ++ toString f

/-- The reconciliation result of recordLoanRepayment: the updated loan
snapshot (or null when no loan matched) and a message. -/
structure RepayResult where
  loan : Option Loan
  message : String
deriving DecidableEq

/-- recordLoanRepayment (supabase.js lines 151-215): find the first
active loan matching the lender name; if none, record the repayment as a
plain expense transaction and return loan = null; otherwise update the
loan's balance and status, record the derived expense transaction, and
return the updated snapshot. -/
def recordLoanRepayment (st : Store) (userId lenderName : String) (amount : ℚ)
    (date currency : String) : Store × RepayResult :=
  match findActiveLoansMatching st userId lenderName with
  | [] =>
    let st1 := saveTransaction st
      { userId := userId
        amount := .num amount
        currency := if currency = "" then "BDT" else currency
        category := "loan_repayment"
        notes := "Loan repayment to " ++ lenderName ++ " (no matching loan found)"
        type := "expense"
        date := date }
    (st1, { loan := none
            message := "No active loan found for \"" ++ lenderName ++ "\". Recorded as expense." })
  | loan :: _ =>
    let updated := applyRepayment loan amount
    let st1 := updateLoan st loan.id updated.total_paid updated.remaining_balance updated.status
    let st2 := saveTransaction st1
      { userId := userId
        amount := .num amount
        currency := if currency = "" then "BDT" else currency
        category := "loan_repayment"
        notes := "Loan repayment to " ++ loan.lender_name
        type := "expense"
        date := date }
    (st2, { loan := some updated
            message :=
              if updated.status = "paid_off" then
                "Loan from " ++ loan.lender_name ++ " fully paid off!"
              else
                "Repayment recorded. Remaining: " ++ toFixed2 updated.remaining_balance
                  ++ " " ++ loan.currency })

/-- The default-transaction branch of the process-utterance handler
(server code, the final else of /api/process): write the ledger row only
when both amount and type are truthy. -/
def processTransactionBranch (st : Store) (uid : String) (r : TransactionNorm)
    (inputText anchor : String) : Store :=
  if r.amount.truthy = true ∧ r.type ≠ "" then
    saveTransaction st
      { userId := uid
        amount := r.amount
        currency := if r.currency = "" then "BDT" else r.currency
        category := if r.category = "" then "other" else r.category
        notes := if r.notes = "" then inputText else r.notes
        type := r.type
        date := if r.date = "" then anchor else r.date }
  else st

/-- The guard of the loan-repayment branch of the process-utterance
handler: the missing-repayment-details message is produced exactly when
`extractedData.amount && extractedData.lender_name` is falsy. -/
def repaymentDetailsMissing (r : RepaymentNorm) : Bool :=
  !(r.amount.truthy && r.lender_name != "")

/-- Rendering of a rational in a template literal; integers render as in
JavaScript, the (unused in practice) non-integer case is abbreviated to
Lean's fraction rendering. -/
def ratRender (q : ℚ) : String :=
  if q.den = 1 then toString q.num else toString q

/-- Rendering of a JSON value in a template literal, as JavaScript string
interpolation would produce. -/
def JVal.render : JVal → String
  | .undef => "undefined"
  | .null => "null"
  | .num q => ratRender q
  | .str s => s
  | .bool b => if b then "true" else "false"

/-- generateResponseMessage (server code): the transaction confirmation
message. The date slot is `data.date || "today"`. -/
def generateResponseMessage (data : TransactionNorm) : String :=
  if data.amount.truthy = false ∨ data.type = "" then
    "I couldn't extract the transaction details. Please provide the amount and specify if it's an expense or income."
  else
    (if data.type = "expense" then "💸" else "💰") ++ " Successfully " ++
      (if data.type = "expense" then "recorded expense" else "recorded income") ++
      ": " ++ (if data.currency = "" then "BDT" else data.currency) ++ " " ++
      data.amount.render ++ " for " ++
      (if data.category = "" then "other" else data.category) ++
      (if data.notes ≠ "" then " (" ++ data.notes ++ ")" else "") ++
      " on " ++ (if data.date = "" then "today" else data.date)

/-- Modelled from the spec (§4.3): the variant of the transaction
confirmation message whose date slot shows the literal "today" when the
date equals the anchor date, and the date value otherwise. Used only to
compare the code's `generateResponseMessage` against the spec's words. -/
def generateResponseMessageSpec (anchor : String) (data : TransactionNorm) : String :=
  if data.amount.truthy = false ∨ data.type = "" then
    "I couldn't extract the transaction details. Please provide the amount and specify if it's an expense or income."
  else
    (if data.type = "expense" then "💸" else "💰") ++ " Successfully " ++
      (if data.type = "expense" then "recorded expense" else "recorded income") ++
      ": " ++ (if data.currency = "" then "BDT" else data.currency) ++ " " ++
      data.amount.render ++ " for " ++
      (if data.category = "" then "other" else data.category) ++
      (if data.notes ≠ "" then " (" ++ data.notes ++ ")" else "") ++
      " on " ++ (if data.date = anchor then "today" else data.date)

/-- The operations reachable through the store interface. -/
inductive StoreOp where
  | opSaveTransaction (d : TxnData)
  | opSaveLoan (d : LoanData)
  | opDeleteTransaction (transactionId : Nat)
  | opDeleteLoan (loanId : Nat)
  | opRecordLoanRepayment (userId lenderName : String) (amount : ℚ)
      (date currency : String)

/-- Effect of one store operation on the store state. -/
def applyOp (st : Store) : StoreOp → Store
  | .opSaveTransaction d => saveTransaction st d
  | .opSaveLoan d => (saveLoan st d).1
  | .opDeleteTransaction i => deleteTransaction st i
  | .opDeleteLoan i => deleteLoan st i
  | .opRecordLoanRepayment u l a dt c => (recordLoanRepayment st u l a dt c).1

/-- Well-formedness of a store state: loan ids are distinct primary keys
and every assigned id is below the fresh-id counter. -/
def WF (st : Store) : Prop :=
  (st.loans.map (fun l => l.id)).Nodup ∧ ∀ l ∈ st.loans, l.id < st.nextLoanId

instance (st : Store) : Decidable (WF st) := by
  unfold WF; infer_instance

/-- The empty store. -/
def emptyStore : Store :=
  { transactions := [], loans := [], nextTxnId := 0, nextLoanId := 0 }

theorem strOr_ne_empty (x : Option String) (d : String) (hd : d ≠ "") :
    strOr x d ≠ "" := by
  cases x with
  | none => simpa [strOr] using hd
  | some s =>
    by_cases hs : s = "" <;> simp [strOr, hs, hd]

/-- C8: a raw response whose intent discriminator is missing or is any
string other than "new_loan" or "loan_repayment" normalizes to a
transaction-intent record. -/
theorem unrecognized_intent_defaults_to_transaction
    (raw : RawExtraction) (text anchor : String)
    (h : raw.intent = none ∨
      ∀ s, raw.intent = some s → s ≠ "new_loan" ∧ s ≠ "loan_repayment") :
    (extractExpenseData raw text anchor).isTransaction = true := by
  have hi : strOr raw.intent "transaction" ≠ "new_loan" ∧
      strOr raw.intent "transaction" ≠ "loan_repayment" := by
    cases hr : raw.intent with
    | none => refine ⟨?_, ?_⟩ <;> simp [strOr]
    | some s =>
      rcases h with h | h
      · rw [hr] at h; cases h
      · have hs := h s hr
        by_cases he : s = ""
        · subst he; refine ⟨?_, ?_⟩ <;> simp [strOr]
        · simpa [strOr, he] using hs
  simp only [extractExpenseData]
  rw [if_neg hi.1, if_neg hi.2]
  rfl

/-- Closed witness for the C8 theorem at a concrete unrecognized intent. -/
theorem unrecognized_intent_defaults_to_transaction_witness :
    (extractExpenseData { intent := some "hold_money" } "t" "2025-11-22").isTransaction
      = true :=
  unrecognized_intent_defaults_to_transaction { intent := some "hold_money" } "t"
    "2025-11-22"
    (Or.inr (fun s hs => by cases hs; exact ⟨by decide, by decide⟩))

/-- C3 (amended): the normalized currency is always a non-empty string;
the date defaults to the anchor when the raw date is absent or empty; a
non-empty raw date string is passed through unchanged (even when it is
not a parseable calendar date). -/
theorem extraction_currency_date_defaults
    (raw : RawExtraction) (text anchor : String) :
    (extractExpenseData raw text anchor).currencyOf ≠ "" ∧
    ((raw.date = none ∨ raw.date = some "") →
      (extractExpenseData raw text anchor).dateOf = anchor) ∧
    (∀ s, raw.date = some s → s ≠ "" →
      (extractExpenseData raw text anchor).dateOf = s) := by
  have hcur : strOr raw.currency "BDT" ≠ "" :=
    strOr_ne_empty raw.currency "BDT" (by decide)
  have hd1 : (raw.date = none ∨ raw.date = some "") → strOr raw.date anchor = anchor := by
    rintro (h | h) <;> simp [strOr, h]
  have hd2 : ∀ s, raw.date = some s → s ≠ "" → strOr raw.date anchor = s := by
    intro s h hs; simp [strOr, h, hs]
  refine ⟨?_, ?_, ?_⟩
  · simp only [extractExpenseData]
    split_ifs <;> simpa [Normalized.currencyOf] using hcur
  · intro h
    simp only [extractExpenseData]
    split_ifs <;> simpa [Normalized.dateOf] using hd1 h
  · intro s h hs
    simp only [extractExpenseData]
    split_ifs <;> simpa [Normalized.dateOf] using hd2 s h hs

/-- Closed witness for the C3 theorem: an absent date is replaced by the
anchor date and the currency is non-empty. -/
theorem extraction_currency_date_defaults_witness :
    (extractExpenseData {} "t" "2025-11-22").currencyOf ≠ "" ∧
    (extractExpenseData {} "t" "2025-11-22").dateOf = "2025-11-22" :=
  ⟨(extraction_currency_date_defaults {} "t" "2025-11-22").1,
   (extraction_currency_date_defaults {} "t" "2025-11-22").2.1 (Or.inl rfl)⟩

/-- Counterexample to C3 as stated: a present but unparseable date value
("not-a-date") is passed through unchanged, so the normalized date is
neither a valid calendar date nor the anchor date. -/
theorem extraction_unparseable_date_passthrough :
    extractExpenseData { date := some "not-a-date" } "paid rent" "2025-11-22" =
      .transaction { amount := .num 0, currency := "BDT", category := "other",
                     notes := "paid rent", type := "expense", date := "not-a-date" } ∧
    isValidDate "not-a-date" = false ∧
    ("not-a-date" : String) ≠ "2025-11-22" :=
  ⟨by decide, by decide, by decide⟩

/-- C4 (amended): a falsy raw amount (absent, zero, null, empty string,
or false) normalizes to amount 0 and the handler's transaction branch
performs no store write. -/
theorem falsy_amount_short_circuits
    (raw : RawExtraction) (text anchor : String) (st : Store)
    (uid inputText anchor2 : String) (r : TransactionNorm)
    (hr : extractExpenseData raw text anchor = .transaction r)
    (hfalsy : raw.amount.truthy = false) :
    r.amount = JVal.num 0 ∧ processTransactionBranch st uid r inputText anchor2 = st := by
  have hamt : r.amount = JVal.num 0 := by
    simp only [extractExpenseData] at hr
    split_ifs at hr
    · cases hr
      simp [JVal.orDefault, hfalsy]
    · cases hr
      simp [JVal.orDefault, hfalsy]
  refine ⟨hamt, ?_⟩
  unfold processTransactionBranch
  rw [if_neg]
  rw [hamt]
  simp [JVal.truthy]

/-- Closed witness for the C4 theorem at a raw response with no amount. -/
theorem falsy_amount_short_circuits_witness :
    extractExpenseData {} "t" "2025-11-22" =
      .transaction { amount := .num 0, currency := "BDT", category := "other",
                     notes := "t", type := "expense", date := "2025-11-22" } ∧
    ({} : RawExtraction).amount.truthy = false ∧
    processTransactionBranch emptyStore "u"
      { amount := .num 0, currency := "BDT", category := "other",
        notes := "t", type := "expense", date := "2025-11-22" } "t" "2025-11-22"
      = emptyStore :=
  ⟨by decide, by decide,
   (falsy_amount_short_circuits {} "t" "2025-11-22" emptyStore "u" "t" "2025-11-22"
     { amount := .num 0, currency := "BDT", category := "other",
       notes := "t", type := "expense", date := "2025-11-22" }
     (by decide) (by decide)).2⟩

/-- Counterexample to C4 as stated: a truthy non-numeric raw amount (the
string "abc") is passed through unchanged — the normalized amount is not
0 and the handler's transaction branch does write a ledger row. -/
theorem nonnumeric_amount_passthrough :
    extractExpenseData { amount := .str "abc" } "t" "2025-11-22" =
      .transaction { amount := .str "abc", currency := "BDT", category := "other",
                     notes := "t", type := "expense", date := "2025-11-22" } ∧
    (JVal.str "abc") ≠ JVal.num 0 ∧
    (processTransactionBranch emptyStore "u"
      { amount := .str "abc", currency := "BDT", category := "other",
        notes := "t", type := "expense", date := "2025-11-22" } "t" "2025-11-22").transactions.length
      = emptyStore.transactions.length + 1 :=
  ⟨by decide, by decide, by decide⟩

theorem repayStatus_eq_paid_off_iff (loan : Loan) (A : ℚ) :
    repayStatus loan A = "paid_off" ↔ max 0 (repayRemaining loan A) = 0 := by
  unfold repayStatus
  rcases le_or_lt (repayRemaining loan A) 0 with h | h
  · rw [if_pos h, max_eq_left h]
    simp
  · rw [if_neg (not_le.mpr h), max_eq_right h.le]
    constructor
    · intro habs
      exact absurd habs (by decide)
    · intro h0
      exact absurd h0 (ne_of_gt h)

theorem repayStatus_eq_active_iff (loan : Loan) (A : ℚ) :
    repayStatus loan A = "active" ↔ 0 < repayRemaining loan A := by
  unfold repayStatus
  rcases le_or_lt (repayRemaining loan A) 0 with h | h
  · rw [if_pos h]
    constructor
    · intro habs
      exact absurd habs (by decide)
    · intro h0
      exact absurd h0 (not_lt.mpr h)
  · rw [if_neg (not_le.mpr h)]
    exact ⟨fun _ => h, fun _ => rfl⟩

theorem mem_of_mem_findActive {st : Store} {uid lender : String} {l : Loan}
    (h : l ∈ findActiveLoansMatching st uid lender) :
    l ∈ st.loans ∧ l.user_id = uid ∧ l.status = "active" ∧
      containsIgnoreCase l.lender_name lender = true := by
  unfold findActiveLoansMatching at h
  rw [List.mem_filter] at h
  obtain ⟨hm, hp⟩ := h
  simp only [Bool.and_eq_true, beq_iff_eq] at hp
  exact ⟨hm, hp.1.1, hp.1.2, hp.2⟩

theorem loan_eq_of_id_eq {loans : List Loan}
    (hnd : (loans.map (fun l => l.id)).Nodup)
    {l1 l2 : Loan} (h1 : l1 ∈ loans) (h2 : l2 ∈ loans)
    (hid : l1.id = l2.id) : l1 = l2 :=
  List.inj_on_of_nodup_map hnd h1 h2 hid

/-- C1: when the repayment reconciler finds a matching active loan, the
stored loan afterwards has total_paid = T + A, remaining_balance =
max(0, R - A), and status "paid_off" exactly when the clamped remaining
balance is 0; in particular A ≤ R gives remaining R - A with status
"active" iff R - A > 0, and A > R clamps to 0 with status "paid_off". -/
theorem recordLoanRepayment_match_updates_loan
    (st : Store) (uid lender : String) (A : ℚ) (date currency : String)
    (loan : Loan) (rest : List Loan)
    (hnd : (st.loans.map (fun l => l.id)).Nodup)
    (hc : findActiveLoansMatching st uid lender = loan :: rest) :
    (∃ l' ∈ ((recordLoanRepayment st uid lender A date currency).1).loans,
        l'.id = loan.id) ∧
    ∀ l' ∈ ((recordLoanRepayment st uid lender A date currency).1).loans,
      l'.id = loan.id →
        l'.total_paid = loan.total_paid + A ∧
        l'.remaining_balance = max 0 (loan.remaining_balance - A) ∧
        (l'.status = "paid_off" ↔ max 0 (loan.remaining_balance - A) = 0) ∧
        (A ≤ loan.remaining_balance →
          l'.remaining_balance = loan.remaining_balance - A ∧
          (l'.status = "active" ↔ 0 < loan.remaining_balance - A)) ∧
        (loan.remaining_balance < A →
          l'.remaining_balance = 0 ∧ l'.status = "paid_off") := by
  have hloanmem : loan ∈ st.loans :=
    (mem_of_mem_findActive (hc ▸ List.mem_cons_self loan rest)).1
  have hst : ((recordLoanRepayment st uid lender A date currency).1).loans =
      st.loans.map (fun l =>
        if l.id == loan.id then
          { l with total_paid := (applyRepayment loan A).total_paid,
                   remaining_balance := (applyRepayment loan A).remaining_balance,
                   status := (applyRepayment loan A).status }
        else l) := by
    unfold recordLoanRepayment
    rw [hc]
    rfl
  constructor
  · refine ⟨_, hst ▸ List.mem_map_of_mem _ hloanmem, ?_⟩
    simp
  · intro l' hl' hid
    rw [hst] at hl'
    obtain ⟨l2, hl2, hfl2⟩ := List.mem_map.mp hl'
    by_cases hcase : l2.id = loan.id
    · have hl2eq : l2 = loan := loan_eq_of_id_eq hnd hl2 hloanmem hcase
      subst hl2eq
      rw [if_pos (beq_iff_eq.mpr hcase)] at hfl2
      subst hfl2
      refine ⟨rfl, rfl, repayStatus_eq_paid_off_iff l2 A, ?_, ?_⟩
      · intro hA
        have hnn : 0 ≤ repayRemaining l2 A := sub_nonneg.mpr hA
        refine ⟨?_, ?_⟩
        · show max 0 (repayRemaining l2 A) = l2.remaining_balance - A
          rw [max_eq_right hnn]
          rfl
        · rw [show (0 : ℚ) < l2.remaining_balance - A ↔ 0 < repayRemaining l2 A from Iff.rfl]
          exact repayStatus_eq_active_iff l2 A
      · intro hA
        have hnp : repayRemaining l2 A ≤ 0 := by
          unfold repayRemaining
          linarith
        refine ⟨?_, ?_⟩
        · show max 0 (repayRemaining l2 A) = 0
          exact max_eq_left hnp
        · exact (repayStatus_eq_paid_off_iff l2 A).mpr (max_eq_left hnp)
    · rw [if_neg (by simpa using hcase)] at hfl2
      subst hfl2
      exact absurd hid hcase

/-- The example loan of the end-to-end scenarios: a 50000 BDT bank loan
from BRAC Bank with nothing repaid yet. -/
def wLoan : Loan :=
  { id := 0, user_id := "u1", lender_name := "BRAC Bank", loan_type := "bank",
    principal_amount := 50000, interest_rate := 12, tenure_months := some 24,
    monthly_installment := none, total_paid := 0, remaining_balance := 50000,
    currency := "BDT", status := "active", start_date := "2025-01-01", notes := "" }

/-- A store holding just the example loan. -/
def wStore : Store :=
  { transactions := [], loans := [wLoan], nextTxnId := 0, nextLoanId := 1 }

/-- Closed witness for the C1 theorem: a 2000 repayment against the
matching 50000 BRAC Bank loan. -/
theorem recordLoanRepayment_match_updates_loan_witness :
    ((wStore.loans.map (fun l => l.id)).Nodup) ∧
    findActiveLoansMatching wStore "u1" "brac" = wLoan :: [] ∧
    ((∃ l' ∈ ((recordLoanRepayment wStore "u1" "brac" 2000 "2025-11-22" "BDT").1).loans,
        l'.id = wLoan.id) ∧
      ∀ l' ∈ ((recordLoanRepayment wStore "u1" "brac" 2000 "2025-11-22" "BDT").1).loans,
        l'.id = wLoan.id →
          l'.total_paid = wLoan.total_paid + 2000 ∧
          l'.remaining_balance = max 0 (wLoan.remaining_balance - 2000) ∧
          (l'.status = "paid_off" ↔ max 0 (wLoan.remaining_balance - 2000) = 0) ∧
          (2000 ≤ wLoan.remaining_balance →
            l'.remaining_balance = wLoan.remaining_balance - 2000 ∧
            (l'.status = "active" ↔ 0 < wLoan.remaining_balance - 2000)) ∧
          (wLoan.remaining_balance < 2000 →
            l'.remaining_balance = 0 ∧ l'.status = "paid_off")) :=
  ⟨by decide, by decide,
   recordLoanRepayment_match_updates_loan wStore "u1" "brac" 2000 "2025-11-22" "BDT"
     wLoan [] (by decide) (by decide)⟩

/-- C5: a repayment of A ≤ remaining_balance preserves the invariant
total_paid + remaining_balance = principal_amount, and after any
repayment the loan's status is "paid_off" iff its remaining balance is 0. -/
theorem repayment_preserves_principal_invariant
    (loan : Loan) (A : ℚ)
    (hinv : loan.total_paid + loan.remaining_balance = loan.principal_amount)
    (hA : A ≤ loan.remaining_balance) :
    ((applyRepayment loan A).total_paid + (applyRepayment loan A).remaining_balance
        = loan.principal_amount) ∧
    ∀ (l : Loan) (B : ℚ),
      ((applyRepayment l B).status = "paid_off" ↔
        (applyRepayment l B).remaining_balance = 0) := by
  constructor
  · show repayTotalPaid loan A + max 0 (repayRemaining loan A) = loan.principal_amount
    have h0 : (0 : ℚ) ≤ repayRemaining loan A := sub_nonneg.mpr hA
    rw [max_eq_right h0]
    unfold repayTotalPaid repayRemaining
    linarith
  · intro l B
    exact repayStatus_eq_paid_off_iff l B

/-- Closed witness for the C5 theorem at the example loan. -/
theorem repayment_preserves_principal_invariant_witness :
    (wLoan.total_paid + wLoan.remaining_balance = wLoan.principal_amount) ∧
    ((2000 : ℚ) ≤ wLoan.remaining_balance) ∧
    ((applyRepayment wLoan 2000).total_paid +
        (applyRepayment wLoan 2000).remaining_balance = wLoan.principal_amount) ∧
    ((applyRepayment wLoan 50000).status = "paid_off" ↔
      (applyRepayment wLoan 50000).remaining_balance = 0) :=
  ⟨by norm_num [wLoan], by norm_num [wLoan],
   (repayment_preserves_principal_invariant wLoan 2000 (by norm_num [wLoan])
     (by norm_num [wLoan])).1,
   (repayment_preserves_principal_invariant wLoan 2000 (by norm_num [wLoan])
     (by norm_num [wLoan])).2 wLoan 50000⟩

theorem strData_append (a b : String) : (a ++ b).data = a.data ++ b.data := by
  cases a
  cases b
  rfl

/-- C7: a repayment whose lender name matches no active loan of the user
mutates no loan, appends exactly one expense transaction with category
"loan_repayment" and notes containing "no matching loan found", and
returns a reconciliation result with loan = null. -/
theorem recordLoanRepayment_no_match
    (st : Store) (uid lender : String) (A : ℚ) (date currency : String)
    (h : ∀ l ∈ st.loans, l.user_id = uid → l.status = "active" →
      containsIgnoreCase l.lender_name lender = false) :
    ((recordLoanRepayment st uid lender A date currency).1).loans = st.loans ∧
    ((recordLoanRepayment st uid lender A date currency).2).loan = none ∧
    ∃ tx : Txn,
      ((recordLoanRepayment st uid lender A date currency).1).transactions
        = st.transactions ++ [tx] ∧
      tx.category = "loan_repayment" ∧ tx.type = "expense" ∧
      tx.amount = JVal.num A ∧
      ∃ pre post : List Char,
        tx.notes.data = pre ++ ("no matching loan found").data ++ post := by
  have hempty : findActiveLoansMatching st uid lender = [] := by
    unfold findActiveLoansMatching
    rw [List.filter_eq_nil_iff]
    intro l hl
    simp only [Bool.and_eq_true, beq_iff_eq, not_and]
    intro hu hs
    rw [h l hl hu.1 hu.2] at hs
    cases hs
  unfold recordLoanRepayment
  rw [hempty]
  refine ⟨rfl, rfl, _, rfl, rfl, rfl, rfl, ?_⟩
  refine ⟨("Loan repayment to " ++ lender ++ " (").data, (")").data, ?_⟩
  show ("Loan repayment to " ++ lender ++ " (no matching loan found)").data = _
  rw [strData_append, strData_append, strData_append, strData_append]
  simp only [List.append_assoc, List.append_cancel_left_eq]
  decide

/-- Closed witness for the C7 theorem: a repayment to "City Bank" when
the only active loan is from BRAC Bank. -/
theorem recordLoanRepayment_no_match_witness :
    (∀ l ∈ wStore.loans, l.user_id = "u1" → l.status = "active" →
      containsIgnoreCase l.lender_name "City Bank" = false) ∧
    (((recordLoanRepayment wStore "u1" "City Bank" 300 "2025-11-22" "BDT").1).loans
        = wStore.loans ∧
      ((recordLoanRepayment wStore "u1" "City Bank" 300 "2025-11-22" "BDT").2).loan
        = none ∧
      ∃ tx : Txn,
        ((recordLoanRepayment wStore "u1" "City Bank" 300 "2025-11-22" "BDT").1).transactions
          = wStore.transactions ++ [tx] ∧
        tx.category = "loan_repayment" ∧ tx.type = "expense" ∧
        tx.amount = JVal.num 300 ∧
        ∃ pre post : List Char,
          tx.notes.data = pre ++ ("no matching loan found").data ++ post) :=
  ⟨by decide,
   recordLoanRepayment_no_match wStore "u1" "City Bank" 300 "2025-11-22" "BDT"
     (by decide)⟩

/-- C6: a paid-off loan is never selected by the repayment reconciler's
active-loan match, and no store operation ever turns a loan whose status
is "paid_off" back into any other status. -/
theorem paid_off_is_permanent :
    (∀ (st : Store) (uid lender : String) (l : Loan),
      l.status = "paid_off" → l ∉ findActiveLoansMatching st uid lender) ∧
    (∀ (st : Store) (op : StoreOp) (l0 : Loan),
      WF st → l0 ∈ st.loans → l0.status = "paid_off" →
      ∀ l' ∈ (applyOp st op).loans, l'.id = l0.id → l'.status = "paid_off") := by
  constructor
  · intro st uid lender l hpo hmem
    have hact := (mem_of_mem_findActive hmem).2.2.1
    rw [hpo] at hact
    exact absurd hact (by decide)
  · intro st op l0 hwf hl0 hpo
    obtain ⟨hnd, hlt⟩ := hwf
    cases op with
    | opSaveTransaction d =>
      intro l' hl' hid
      have : l' = l0 := loan_eq_of_id_eq hnd hl' hl0 hid
      rw [this]; exact hpo
    | opSaveLoan d =>
      intro l' hl' hid
      rcases List.mem_append.mp hl' with hin | hnew
      · have : l' = l0 := loan_eq_of_id_eq hnd hin hl0 hid
        rw [this]; exact hpo
      · have hne : l' = (saveLoan st d).2 := List.mem_singleton.mp hnew
        have hidnew : l'.id = st.nextLoanId := by rw [hne]; rfl
        have : l0.id < st.nextLoanId := hlt l0 hl0
        rw [← hidnew, hid] at this
        exact absurd this (lt_irrefl _)
    | opDeleteTransaction i =>
      intro l' hl' hid
      have : l' = l0 := loan_eq_of_id_eq hnd hl' hl0 hid
      rw [this]; exact hpo
    | opDeleteLoan i =>
      intro l' hl' hid
      have hin : l' ∈ st.loans := List.mem_of_mem_filter hl'
      have : l' = l0 := loan_eq_of_id_eq hnd hin hl0 hid
      rw [this]; exact hpo
    | opRecordLoanRepayment u lender a dt c =>
      intro l' hl' hid
      rcases hfind : findActiveLoansMatching st u lender with _ | ⟨loan1, rest⟩
      · have hsame : ((recordLoanRepayment st u lender a dt c).1).loans = st.loans := by
          unfold recordLoanRepayment
          rw [hfind]
          rfl
        rw [show applyOp st (.opRecordLoanRepayment u lender a dt c)
              = (recordLoanRepayment st u lender a dt c).1 from rfl, hsame] at hl'
        have : l' = l0 := loan_eq_of_id_eq hnd hl' hl0 hid
        rw [this]; exact hpo
      · have hm1 := mem_of_mem_findActive (hfind ▸ List.mem_cons_self loan1 rest)
        have hmap : ((recordLoanRepayment st u lender a dt c).1).loans =
            st.loans.map (fun l =>
              if l.id == loan1.id then
                { l with total_paid := (applyRepayment loan1 a).total_paid,
                         remaining_balance := (applyRepayment loan1 a).remaining_balance,
                         status := (applyRepayment loan1 a).status }
              else l) := by
          unfold recordLoanRepayment
          rw [hfind]
          rfl
        rw [show applyOp st (.opRecordLoanRepayment u lender a dt c)
              = (recordLoanRepayment st u lender a dt c).1 from rfl, hmap] at hl'
        obtain ⟨l2, hl2, hfl2⟩ := List.mem_map.mp hl'
        by_cases hcase : l2.id = loan1.id
        · have h21 : l2 = loan1 := loan_eq_of_id_eq hnd hl2 hm1.1 hcase
          have hid2 : l'.id = l2.id := by
            rw [← hfl2, if_pos (beq_iff_eq.mpr hcase)]
          have h20 : l2 = l0 := loan_eq_of_id_eq hnd hl2 hl0 (by rw [← hid2, hid])
          have : loan1.status = "paid_off" := by rw [← h21, h20]; exact hpo
          rw [hm1.2.2.1] at this
          exact absurd this (by decide)
        · rw [if_neg (by simpa using hcase)] at hfl2
          rw [← hfl2] at hid ⊢
          have : l2 = l0 := loan_eq_of_id_eq hnd hl2 hl0 hid
          rw [this]; exact hpo

/-- The example loan after full payoff. -/
def pLoan : Loan :=
  { wLoan with total_paid := 50000, remaining_balance := 0, status := "paid_off" }

/-- A store holding just the paid-off loan. -/
def pStore : Store :=
  { transactions := [], loans := [pLoan], nextTxnId := 0, nextLoanId := 1 }

/-- Closed witness for the C6 theorem: the paid-off BRAC Bank loan is not
matched by a later repayment, and that repayment leaves it paid off. -/
theorem paid_off_is_permanent_witness :
    pLoan.status = "paid_off" ∧
    WF pStore ∧ pLoan ∈ pStore.loans ∧
    pLoan ∉ findActiveLoansMatching pStore "u1" "brac" ∧
    ∀ l' ∈ (applyOp pStore (.opRecordLoanRepayment "u1" "brac" 100 "2025-12-01" "BDT")).loans,
      l'.id = pLoan.id → l'.status = "paid_off" :=
  ⟨by decide, by decide, by decide,
   paid_off_is_permanent.1 pStore "u1" "brac" pLoan (by decide),
   paid_off_is_permanent.2 pStore (.opRecordLoanRepayment "u1" "brac" 100 "2025-12-01" "BDT")
     pLoan (by decide) (by decide) (by decide)⟩

/-- A transaction row owned by "bob". -/
def bobTxn : Txn :=
  { id := 7, user_id := "bob", amount := .num 100, currency := "BDT",
    category := "food", notes := "", type := "expense", date := "2025-01-01" }

/-- A loan row owned by "bob". -/
def bobLoan : Loan :=
  { id := 3, user_id := "bob", lender_name := "BRAC Bank", loan_type := "bank",
    principal_amount := 1000, interest_rate := 0, tenure_months := none,
    monthly_installment := none, total_paid := 0, remaining_balance := 1000,
    currency := "BDT", status := "active", start_date := "2025-01-01", notes := "" }

/-- A store holding one transaction and one loan, both owned by "bob". -/
def bobStore : Store :=
  { transactions := [bobTxn], loans := [bobLoan], nextTxnId := 8, nextLoanId := 4 }

/-- C2 failing behaviour: deleteTransaction and deleteLoan take no user
id and filter only on the row id, so a call with another user's row id
deletes that user's row — here both of bob's rows are removed even
though no caller identity was supplied at all. -/
theorem deleteById_ignores_owner :
    (deleteTransaction bobStore 7).transactions = [] ∧
    (deleteLoan bobStore 3).loans = [] :=
  ⟨by decide, by decide⟩

/-- The transaction extraction of end-to-end scenario 1, whose date
equals the anchor date 2025-11-22. -/
def scn1Data : TransactionNorm :=
  { amount := .num 200, currency := "BDT", category := "shopping",
    notes := "shopping", type := "expense", date := "2025-11-22" }

/-- Counterexample to C9 as stated: with the extraction's date equal to
the anchor date, the rendered message shows the date value, not the
literal word "today" — the code's formatter differs from the spec's
anchor-comparing formatter at this input. -/
theorem formatter_ignores_anchor_date :
    scn1Data.date = "2025-11-22" ∧
    generateResponseMessage scn1Data ≠ generateResponseMessageSpec "2025-11-22" scn1Data :=
  ⟨by decide, by decide⟩

/-- C9 (amended): the formatter is a pure deterministic function of its
input, and the date slot of the rendered transaction message shows the
literal word "today" exactly when the extraction's date is empty, and
the date value otherwise (equality with the anchor date plays no role). -/
theorem formatter_deterministic_and_date_slot :
    (∀ d1 d2 : TransactionNorm, d1 = d2 →
      generateResponseMessage d1 = generateResponseMessage d2) ∧
    (∀ d : TransactionNorm, d.amount.truthy = true → d.type ≠ "" →
      (d.date = "" → ∃ p : String, generateResponseMessage d = p ++ "today") ∧
      (d.date ≠ "" → ∃ p : String, generateResponseMessage d = p ++ d.date)) := by
  constructor
  · intro d1 d2 h
    rw [h]
  · intro d h1 h2
    have hneg : ¬(d.amount.truthy = false ∨ d.type = "") := by
      simp [h1, h2]
    constructor
    · intro hd
      exact ⟨_, by unfold generateResponseMessage; rw [if_neg hneg, if_pos hd]⟩
    · intro hd
      exact ⟨_, by unfold generateResponseMessage; rw [if_neg hneg, if_neg hd]⟩

/-- Closed witness for the C9 theorem at the scenario-1 extraction. -/
theorem formatter_deterministic_and_date_slot_witness :
    scn1Data.amount.truthy = true ∧ scn1Data.type ≠ "" ∧ scn1Data.date ≠ "" ∧
    generateResponseMessage scn1Data = generateResponseMessage scn1Data ∧
    ∃ p : String, generateResponseMessage scn1Data = p ++ scn1Data.date :=
  ⟨by decide, by decide, by decide,
   formatter_deterministic_and_date_slot.1 scn1Data scn1Data rfl,
   (formatter_deterministic_and_date_slot.2 scn1Data (by decide) (by decide)).2
     (by decide)⟩

/-- C10: a normalized loan-repayment record always has a non-empty
lender name, so the handler's missing-repayment-details branch is
reachable only with amount 0; an absent raw lender defaults to
"Unknown", and the reconciliation for such a repayment matches exactly
those active loans whose stored lender name contains "Unknown"
case-insensitively. -/
theorem repayment_lender_never_empty :
    (∀ (raw : RawExtraction) (text anchor : String) (r : RepaymentNorm),
      extractExpenseData raw text anchor = .loanRepayment r → r.lender_name ≠ "") ∧
    (∀ (raw : RawExtraction) (text anchor : String) (r : RepaymentNorm),
      extractExpenseData raw text anchor = .loanRepayment r →
      repaymentDetailsMissing r = true → r.amount = JVal.num 0) ∧
    (∀ (raw : RawExtraction) (text anchor : String) (r : RepaymentNorm),
      extractExpenseData raw text anchor = .loanRepayment r →
      raw.lender_name = none →
      r.lender_name = "Unknown" ∧
      ∀ (st : Store) (uid : String) (l : Loan),
        l ∈ findActiveLoansMatching st uid r.lender_name →
        subList (lowerStr "Unknown").data (lowerStr l.lender_name).data = true) := by
  refine ⟨?_, ?_, ?_⟩
  · intro raw text anchor r hr
    simp only [extractExpenseData] at hr
    split_ifs at hr
    cases hr
    exact strOr_ne_empty raw.lender_name "Unknown" (by decide)
  · intro raw text anchor r hr hmiss
    simp only [extractExpenseData] at hr
    split_ifs at hr
    cases hr
    have hl : strOr raw.lender_name "Unknown" ≠ "" :=
      strOr_ne_empty raw.lender_name "Unknown" (by decide)
    by_cases ha : raw.amount.truthy = true
    · exfalso
      simp [repaymentDetailsMissing, JVal.orDefault, ha, bne_iff_ne, hl] at hmiss
    · have ha' : raw.amount.truthy = false := by
        simpa using ha
      simp [JVal.orDefault, ha']
  · intro raw text anchor r hr hnone
    simp only [extractExpenseData] at hr
    split_ifs at hr
    cases hr
    refine ⟨by rw [hnone]; rfl, ?_⟩
    intro st uid l hmem
    have hc := (mem_of_mem_findActive hmem).2.2.2
    rw [hnone] at hc
    exact hc

/-- An active loan whose lender name contains "Unknown". -/
def uLoan : Loan :=
  { id := 0, user_id := "u1", lender_name := "Unknown Person",
    loan_type := "personal", principal_amount := 5000, interest_rate := 0,
    tenure_months := none, monthly_installment := none, total_paid := 0,
    remaining_balance := 5000, currency := "BDT", status := "active",
    start_date := "2025-01-01", notes := "" }

/-- A store holding just that loan. -/
def uStore : Store :=
  { transactions := [], loans := [uLoan], nextTxnId := 0, nextLoanId := 1 }

/-- The normalized repayment record of the C10 witness. -/
def uRepay : RepaymentNorm :=
  { lender_name := "Unknown", amount := .num 500, currency := "BDT",
    date := "2025-11-22", notes := "t" }

/-- Closed witness for the C10 theorem: a loan_repayment extraction with
no lender field defaults to "Unknown" and matches the "Unknown Person"
loan. -/
theorem repayment_lender_never_empty_witness :
    extractExpenseData { intent := some "loan_repayment", amount := .num 500 }
        "t" "2025-11-22" = .loanRepayment uRepay ∧
    uRepay.lender_name ≠ "" ∧
    uLoan ∈ findActiveLoansMatching uStore "u1" uRepay.lender_name ∧
    subList (lowerStr "Unknown").data (lowerStr uLoan.lender_name).data = true :=
  ⟨by decide,
   repayment_lender_never_empty.1 { intent := some "loan_repayment", amount := .num 500 }
     "t" "2025-11-22" uRepay (by decide),
   by decide,
   (repayment_lender_never_empty.2.2 { intent := some "loan_repayment", amount := .num 500 }
     "t" "2025-11-22" uRepay (by decide) rfl).2 uStore "u1" uLoan (by decide)⟩

end AiAccountant
